import Mathlib

/-!
Verification of the `defip` library: a shallow embedding of
`defip.go` and `netstat_parser.go` (plus the fragments of the Go standard
library they rely on: `strings`, `net/netip`, `slices.SortFunc`), together
with theorems settling the specification claims.

Conventions:
* Go strings are modelled over Lean `Char` lists; the ASCII fragment of
  Unicode case folding / white space (all the program's inputs are ASCII)
  is embedded.
* Machine integers are `Nat`/`Int`; byte values are `Nat` kept below 256 by
  construction; 64-bit words are `Nat` kept below 2^64 by explicit `%`.
* Go panics (out-of-range slice indexing, explicit `panic`) are modelled as
  an explicit `panicked` outcome; fallible functions return `Except`.
-/

namespace Defip

/-! ### Go `strings` helpers (ASCII fragment) -/

/-- ASCII white space, the fragment of Go `unicode.IsSpace` exercised here. -/
def isSpaceChar (c : Char) : Bool :=
  c == ' ' || c == '\t' || c == '\n' || c == '\x0d' || c == '\x0b' || c == '\x0c'

/-- Go `strings.TrimSpace` on the character list. -/
def trimSpaceL (l : List Char) : List Char :=
  ((l.dropWhile isSpaceChar).reverse.dropWhile isSpaceChar).reverse

/-- Go `strings.TrimSpace`. -/
def trimSpace (s : String) : String :=
  String.mk (trimSpaceL s.toList)

/-- Helper for Go `strings.Fields`: accumulate the current word (reversed)
while splitting on runs of white space. -/
def fieldsAux : List Char → List Char → List (List Char)
  | acc, [] => if acc = [] then [] else [acc.reverse]
  | acc, c :: cs =>
    if isSpaceChar c then
      if acc = [] then fieldsAux [] cs else acc.reverse :: fieldsAux [] cs
    else fieldsAux (c :: acc) cs

/-- Go `strings.Fields`: the white-space separated tokens of `s`. -/
def goFields (s : String) : List String :=
  (fieldsAux [] s.toList).map String.mk

/-- First argument is a prefix of the second (on char lists). -/
def listStartsWith : List Char → List Char → Bool
  | [], _ => true
  | _ :: _, [] => false
  | c :: cs, d :: ds => c == d && listStartsWith cs ds

/-- Go `strings.Contains sub` over char lists: some suffix starts with `sub`. -/
def containsAtSome (sub : List Char) : List Char → Bool
  | [] => listStartsWith sub []
  | c :: cs => listStartsWith sub (c :: cs) || containsAtSome sub cs

/-- Go `strings.Contains s sub`. -/
def goContains (s sub : String) : Bool :=
  containsAtSome sub.toList s.toList

/-- Go `strings.ContainsRune s r`. -/
def goContainsRune (s : String) (r : Char) : Bool :=
  s.toList.any (fun c => c == r)

/-- Go `strings.ContainsAny s chars`. -/
def goContainsAny (s chars : String) : Bool :=
  s.toList.any (fun c => chars.toList.any (fun d => d == c))

/-- ASCII fragment of Go `unicode.ToLower` (the strings compared against are
ASCII literals). -/
def toLowerChar (c : Char) : Char :=
  if 'A' ≤ c ∧ c ≤ 'Z' then Char.ofNat (c.toNat + 32) else c

/-- Go `strings.ToLower` (ASCII fragment). -/
def goToLower (s : String) : String :=
  String.mk (s.toList.map toLowerChar)

/-- Go `strings.Split s "/"` restricted to its first element, as used by the
IPv6 data-row CIDR stripping: everything before the first `/`. -/
def splitSlashHead (s : String) : String :=
  String.mk (s.toList.takeWhile (fun c => c != '/'))

/-- Byte-wise (here: code-point-wise, the inputs are ASCII) three-way string
comparison, as Go `<`/`>` on strings. -/
def cmpCharList : List Char → List Char → Int
  | [], [] => 0
  | [], _ :: _ => -1
  | _ :: _, [] => 1
  | c :: cs, d :: ds =>
    if c.toNat < d.toNat then -1
    else if d.toNat < c.toNat then 1
    else cmpCharList cs ds

/-- Three-way comparison of Go strings. -/
def cmpStr (a b : String) : Int :=
  cmpCharList a.toList b.toList

/-! ### `net/netip` model: the `Addr` value type -/

/-- The `z` discriminator of `netip.Addr`: invalid, IPv4, IPv6 without zone,
or IPv6 with a zone string. -/
inductive Zflag
  | z0
  | z4
  | z6noz
  | zoneOf (s : String)
deriving DecidableEq

/-- `netip.Addr`: a 128-bit value stored as two 64-bit halves plus the `z`
discriminator.  IPv4 addresses are stored 4-in-6 in `lo` with `z = z4`. -/
structure Addr where
  hi : Nat
  lo : Nat
  z : Zflag
deriving DecidableEq

/-- The zero `netip.Addr` (invalid). -/
def Addr.invalid : Addr := ⟨0, 0, Zflag.z0⟩

/-- `netip.AddrFrom4`. -/
def addrFrom4 (b0 b1 b2 b3 : Nat) : Addr :=
  ⟨0, 0xffff00000000 + (b0 % 256) * 0x1000000 + (b1 % 256) * 0x10000 +
      (b2 % 256) * 0x100 + (b3 % 256), Zflag.z4⟩

/-- Big-endian `uint64` from 8 bytes (Go `beUint64`). -/
def beUint64 (b : List Nat) : Nat :=
  b.foldl (fun acc x => acc * 256 + x % 256) 0

/-- `netip.AddrFrom16`: the 16 bytes of `b` interpreted big-endian. -/
def addrFrom16 (b : List Nat) : Addr :=
  ⟨beUint64 (b.take 8), beUint64 ((b.drop 8).take 8), Zflag.z6noz⟩

/-- `Addr.Is4`. -/
def Addr.is4B (a : Addr) : Bool := a.z == Zflag.z4

/-- `Addr.Is6`. -/
def Addr.is6B (a : Addr) : Bool := a.z != Zflag.z0 && a.z != Zflag.z4

/-- `Addr.Is4In6`. -/
def Addr.is4In6 (a : Addr) : Bool :=
  a.is6B && a.hi == 0 && a.lo / 0x100000000 == 0xffff

/-- `Addr.Unmap`. -/
def Addr.unmap (a : Addr) : Addr :=
  if a.is4In6 then { a with z := Zflag.z4 } else a

/-- `Addr.BitLen`: 0 invalid, 32 IPv4, 128 IPv6. -/
def Addr.bitLenA (a : Addr) : Nat :=
  match a.z with
  | Zflag.z0 => 0
  | Zflag.z4 => 32
  | _ => 128

/-- `Addr.Zone`. -/
def Addr.zoneStr (a : Addr) : String :=
  match a.z with
  | Zflag.zoneOf s => s
  | _ => ""

/-- `Addr.WithZone`: no-op on non-IPv6; empty zone clears the zone. -/
def Addr.withZone (a : Addr) (zone : String) : Addr :=
  if !a.is6B then a
  else if zone = "" then { a with z := Zflag.z6noz }
  else { a with z := Zflag.zoneOf zone }

/-- `Addr.v4 i`: the `i`-th byte of an IPv4 (or 4-in-6) address. -/
def Addr.v4byte (a : Addr) (i : Nat) : Nat :=
  a.lo / 256 ^ (3 - i) % 256

/-- `Addr.v6 i`: the `i`-th byte of the 128-bit value. -/
def Addr.v6byte (a : Addr) (i : Nat) : Nat :=
  if i < 8 then a.hi / 256 ^ (7 - i) % 256
  else a.lo / 256 ^ (7 - (i - 8)) % 256

/-- `Addr.v6u16 i`: the `i`-th 16-bit group of the 128-bit value. -/
def Addr.v6u16 (a : Addr) (i : Nat) : Nat :=
  if i < 4 then a.hi / 65536 ^ (3 - i) % 65536
  else a.lo / 65536 ^ (3 - (i - 4)) % 65536

/-- `netip.Addr.Compare`: by bit length, then `hi`, then `lo`, then (for two
IPv6 addresses) byte-wise by zone. -/
def Addr.compareA (a b : Addr) : Int :=
  if a.bitLenA < b.bitLenA then -1
  else if b.bitLenA < a.bitLenA then 1
  else if a.hi < b.hi then -1
  else if b.hi < a.hi then 1
  else if a.lo < b.lo then -1
  else if b.lo < a.lo then 1
  else if a.is6B && b.is6B then cmpStr a.zoneStr b.zoneStr
  else 0

/-- `netip.IPv6Unspecified()` (`::`). -/
def ipv6Unspecified : Addr := ⟨0, 0, Zflag.z6noz⟩

/-- `netip.IPv4Unspecified()` (`0.0.0.0`). -/
def ipv4Unspecified : Addr := addrFrom4 0 0 0 0

/-- `Addr.IsLoopback`. -/
def Addr.isLoopback (a : Addr) : Bool :=
  let a := a.unmap
  if a.is4B then a.v4byte 0 == 127
  else if a.is6B then a.hi == 0 && a.lo == 1
  else false

/-- `Addr.IsMulticast` (`b & 0xf0 == 0xe0` is `b / 16 == 14`). -/
def Addr.isMulticast (a : Addr) : Bool :=
  let a := a.unmap
  if a.is4B then a.v4byte 0 / 16 == 14
  else if a.is6B then a.v6byte 0 == 0xff
  else false

/-- `Addr.IsLinkLocalUnicast` (`g & 0xffc0 == 0xfe80` is `g / 64 * 64`). -/
def Addr.isLinkLocalUnicast (a : Addr) : Bool :=
  let a := a.unmap
  if a.is4B then a.v4byte 0 == 169 && a.v4byte 1 == 254
  else if a.is6B then a.v6u16 0 / 64 * 64 == 0xfe80
  else false

/-- `Addr.IsPrivate`: RFC 1918 for IPv4, `fc00::/7` for IPv6
(`b & 0xf0 == 16` is `b / 16 == 1`; `b & 0xfe == 0xfc` is `b / 2 * 2`). -/
def Addr.isPrivate (a : Addr) : Bool :=
  let a := a.unmap
  if a.is4B then
    a.v4byte 0 == 10 ||
    (a.v4byte 0 == 172 && a.v4byte 1 / 16 == 1) ||
    (a.v4byte 0 == 192 && a.v4byte 1 == 168)
  else if a.is6B then a.v6byte 0 / 2 * 2 == 0xfc
  else false

/-- `Addr.IsGlobalUnicast`. -/
def Addr.isGlobalUnicast (a : Addr) : Bool :=
  if a.z == Zflag.z0 then false
  else if a.is4B && (a == ipv4Unspecified || a == addrFrom4 255 255 255 255) then
    false
  else
    a != ipv6Unspecified &&
    !a.isLoopback &&
    !a.isMulticast &&
    !a.isLinkLocalUnicast

/-! ### `netip.ParseAddr` -/

/-- `netip.parseAddrError` (its `at` slice is dropped; only the message and
input matter to the program, which never inspects them). -/
structure AddrParseErr where
  input : String
  msg : String
deriving DecidableEq

/-- Go `netip.parseIPv4Fields`, on the full string: reads dot-separated
decimal octets, rejecting leading zeros, values above 255, and stray dots.
The recursion carries the octets parsed so far (`fieldsAcc`, Go `fields` and
`pos`), the current octet value `val` and its digit count `digLen`. -/
def parseIPv4Fields (inStr : String) : List Nat → Nat → Nat → List Char →
    Except AddrParseErr (List Nat)
  | fieldsAcc, val, _, [] =>
    if fieldsAcc.length < 3 then
      Except.error ⟨inStr, "IPv4 address too short"⟩
    else Except.ok (fieldsAcc ++ [val])
  | fieldsAcc, val, digLen, c :: cs =>
    if '0' ≤ c ∧ c ≤ '9' then
      if digLen = 1 ∧ val = 0 then
        Except.error ⟨inStr, "IPv4 field has octet with leading zero"⟩
      else
        let val := val * 10 + (c.toNat - 48)
        if val > 255 then
          Except.error ⟨inStr, "IPv4 field has value >255"⟩
        else parseIPv4Fields inStr fieldsAcc val (digLen + 1) cs
    else if c = '.' then
      if digLen = 0 ∨ cs = [] then
        Except.error ⟨inStr, "IPv4 field must have at least one digit"⟩
      else if fieldsAcc.length = 3 then
        Except.error ⟨inStr, "IPv4 address too long"⟩
      else parseIPv4Fields inStr (fieldsAcc ++ [val]) 0 0 cs
    else Except.error ⟨inStr, "unexpected character"⟩

/-- Go `netip.parseIPv4`. -/
def parseIPv4Go (s : String) : Except AddrParseErr Addr :=
  match parseIPv4Fields s [] 0 0 s.toList with
  | Except.error e => Except.error e
  | Except.ok bs =>
    match bs with
    | [b0, b1, b2, b3] => Except.ok (addrFrom4 b0 b1 b2 b3)
    | _ => Except.error ⟨s, "IPv4 address too short"⟩

/-- Hex digit value, as in Go `netip.parseIPv6`. -/
def hexDigit (c : Char) : Option Nat :=
  if '0' ≤ c ∧ c ≤ '9' then some (c.toNat - 48)
  else if 'a' ≤ c ∧ c ≤ 'f' then some (c.toNat - 87)
  else if 'A' ≤ c ∧ c ≤ 'F' then some (c.toNat - 55)
  else none

/-- The inline hex-group scan of Go `netip.parseIPv6`: accumulate hex digits
into `acc`, failing (`Except.error`) on overflow past 16 bits; returns the
accumulator, the number of digits consumed and the rest of the string. -/
def scanHexGroup : Nat → Nat → List Char → Except Unit (Nat × Nat × List Char)
  | acc, off, [] => Except.ok (acc, off, [])
  | acc, off, c :: cs =>
    match hexDigit c with
    | none => Except.ok (acc, off, c :: cs)
    | some v =>
      let acc := acc * 16 + v
      if acc > 0xffff then Except.error ()
      else scanHexGroup acc (off + 1) cs

/-- The main loop of Go `netip.parseIPv6` (`for i < 16`): parse one
colon-separated group per step, handling the embedded-IPv4 tail and `::`.
`bytes` holds the bytes written so far (Go `ip[:i]`); returns the bytes, the
ellipsis position and the unconsumed rest on loop exit.  Structural on a
fuel bound: every iteration grows `bytes` by at least two, so the caller's
fuel of 16 makes exhaustion (which returns the loop-exit state) coincide
with the `i < 16` exit. -/
def p6loop (inStr : String) : Nat → List Nat → Option Nat → List Char →
    Except AddrParseErr (List Nat × Option Nat × List Char)
  | 0, bytes, ellipsis, s => Except.ok (bytes, ellipsis, s)
  | fuel + 1, bytes, ellipsis, s =>
    if bytes.length < 16 then
      match scanHexGroup 0 0 s with
      | Except.error _ => Except.error ⟨inStr, "IPv6 field has value >=2^16"⟩
      | Except.ok (acc, off, rest) =>
        if off = 0 then
          Except.error ⟨inStr, "each colon-separated field must have at least one digit"⟩
        else if rest.head? = some '.' then
          if ellipsis = none ∧ bytes.length ≠ 12 then
            Except.error ⟨inStr, "embedded IPv4 address must replace the final 2 fields of the address"⟩
          else if bytes.length + 4 > 16 then
            Except.error ⟨inStr, "too many hex fields to fit an embedded IPv4 at the end of the address"⟩
          else
            match parseIPv4Fields inStr [] 0 0 s with
            | Except.error e => Except.error e
            | Except.ok v4bs => Except.ok (bytes ++ v4bs.take 4, ellipsis, [])
        else
          let bytes2 := bytes ++ [acc / 256, acc % 256]
          if rest = [] then Except.ok (bytes2, ellipsis, [])
          else if rest.head? ≠ some ':' then
            Except.error ⟨inStr, "unexpected character, want colon"⟩
          else if rest.length = 1 then
            Except.error ⟨inStr, "colon must be followed by more characters"⟩
          else
            let rest2 := rest.drop 1
            if rest2.head? = some ':' then
              if ellipsis.isSome then
                Except.error ⟨inStr, "multiple :: in address"⟩
              else
                let rest3 := rest2.drop 1
                if rest3 = [] then Except.ok (bytes2, some bytes2.length, [])
                else p6loop inStr fuel bytes2 (some bytes2.length) rest3
            else p6loop inStr fuel bytes2 ellipsis rest2
    else Except.ok (bytes, ellipsis, s)

/-- Go `netip.parseIPv6`: split off the `%zone`, handle a leading `::`, run
the group loop, then expand the ellipsis. -/
def parseIPv6Go (inStr : String) : Except AddrParseErr Addr :=
  let sAll := inStr.toList
  let s := sAll.takeWhile (fun c => c != '%')
  let hasPct := sAll.any (fun c => c == '%')
  let zone := String.mk ((sAll.dropWhile (fun c => c != '%')).drop 1)
  if hasPct ∧ zone = "" then
    Except.error ⟨inStr, "zone must be a non-empty string"⟩
  else
    let startsEllipsis := listStartsWith [':', ':'] s
    if startsEllipsis ∧ s.length = 2 then
      Except.ok (ipv6Unspecified.withZone zone)
    else
      let body := if startsEllipsis then s.drop 2 else s
      let ell0 : Option Nat := if startsEllipsis then some 0 else none
      match p6loop inStr 16 [] ell0 body with
      | Except.error e => Except.error e
      | Except.ok (bytes, ellipsis, rest) =>
        if rest ≠ [] then
          Except.error ⟨inStr, "trailing garbage after address"⟩
        else if bytes.length < 16 then
          match ellipsis with
          | none => Except.error ⟨inStr, "address string too short"⟩
          | some e =>
            let n := 16 - bytes.length
            let bytes := bytes.take e ++ List.replicate n 0 ++ bytes.drop e
            Except.ok ((addrFrom16 bytes).withZone zone)
        else if ellipsis.isSome then
          Except.error ⟨inStr, "the :: must expand to at least one field of zeros"⟩
        else Except.ok ((addrFrom16 bytes).withZone zone)

/-- Go `netip.ParseAddr`: dispatch on the first of `.`, `:`, `%`. -/
def parseAddr (s : String) : Except AddrParseErr Addr :=
  match s.toList.find? (fun c => c == '.' || c == ':' || c == '%') with
  | some '.' => parseIPv4Go s
  | some ':' => parseIPv6Go s
  | some '%' => Except.error ⟨s, "missing IPv6 address"⟩
  | _ => Except.error ⟨s, "unable to parse IP"⟩

/-- Go `netip.MustParseAddr`; the panic on a parse failure is modelled by the
invalid address (both uses in the source are on valid literals). -/
def mustParseAddr (s : String) : Addr :=
  match parseAddr s with
  | Except.ok a => a
  | Except.error _ => Addr.invalid

/-! ### defip data model (`defip.go`) -/

/-- `NetRouteKind` (`V4 = 1`, `V6 = 2`). -/
inductive NetRouteKind
  | v4
  | v6
deriving DecidableEq

/-- `NetRoute`. -/
structure NetRoute where
  kind : NetRouteKind
  destination : Addr
  flags : String
  netif : String
  gateway : Addr
deriving DecidableEq

/-- `NetRoute.HasFlags`: every requested flag string occurs in `Flags`. -/
def NetRoute.hasFlags (n : NetRoute) (flags : List String) : Bool :=
  flags.all (fun v => goContains n.flags v)

/-- The package-level `filterRoute` closure. -/
def filterRoute (r : NetRoute) : Bool :=
  r.hasFlags ["U", "G"] && !r.hasFlags ["H"]

/-- The generic `filter` helper of `defip.go` (order-preserving). -/
def goFilter {α : Type} : List α → (α → Bool) → List α
  | [], _ => []
  | v :: rest, fn => if fn v then v :: goFilter rest fn else goFilter rest fn

/-- `NetRouteList.FindDefaults`. -/
def findDefaults (n : List NetRoute) (kind : NetRouteKind) : List NetRoute :=
  goFilter n (fun v => v.kind == kind && filterRoute v)

/-- The error types of `errors.go` plus `netip` parse errors. -/
inductive GoErr
  | cantParse
  | notImplemented
  | invalidRouteFileFormat (row : String)
  | addrParse (e : AddrParseErr)
deriving DecidableEq

/-! ### Scoring (`sortWeighted` of `defip.go`) -/

/-- `var ulaEnd = netip.MustParseAddr(...)`. -/
def ulaEnd : Addr := mustParseAddr "fdff:ffff:ffff:ffff:ffff:ffff:ffff:ffff"

/-- `var ulaStart = netip.MustParseAddr("fd00::")`. -/
def ulaStart : Addr := mustParseAddr "fd00::"

/-- `isULA`: `addr.Compare(ulaStart) >= 0 && addr.Compare(ulaEnd) <= 0`. -/
def isULA (addr : Addr) : Bool :=
  decide (0 ≤ addr.compareA ulaStart) && decide (addr.compareA ulaEnd ≤ 0)

/-- `ipWeight`. -/
structure ipWeight where
  addr : Addr
  weight : Nat
deriving DecidableEq

/-- The weight accumulation in `sortWeighted`'s loop. -/
def addrWeight (v : Addr) : Nat :=
  let w := 0
  let w := if isULA v then w + 2 else w
  let w := if v.isPrivate then w + 1 else w
  if v.isGlobalUnicast then w + 1 else w

/-- Three-way comparison on `Nat`, as Go `cmp.Compare`. -/
def cmpNat (a b : Nat) : Int :=
  if a < b then -1 else if b < a then 1 else 0

/-- The comparison closure passed to `slices.SortFunc`:
`cmp.Compare(b.weight, a.weight)` (descending weight). -/
def sortCmp (a b : ipWeight) : Int :=
  cmpNat b.weight a.weight

/-! ### Go `slices.SortFunc` (pdqsort, go1.21 `slices/zsortanyfunc.go`),
specialized to `ipWeight` and the closure above.  Imperative loops become
recursions; array reads out of range return a dummy (all index arithmetic
below stays in range exactly as in Go). -/

/-- In-range array read (indices are in range at every use, as in Go). -/
def aget (d : Array ipWeight) (i : Nat) : ipWeight :=
  d.getD i ⟨Addr.invalid, 0⟩

/-- Go parallel assignment `data[i], data[j] = data[j], data[i]`. -/
def aswap (d : Array ipWeight) (i j : Nat) : Array ipWeight :=
  let x := aget d i
  let y := aget d j
  (d.set! i y).set! j x

/-- `bits.Len` (structural recursion on a fuel bound of `n + 1`, which is
at least the bit length). -/
def bitsLenAux : Nat → Nat → Nat
  | 0, _ => 0
  | fuel + 1, n => if n = 0 then 0 else bitsLenAux fuel (n / 2) + 1

/-- `bits.Len`. -/
def bitsLen (n : Nat) : Nat := bitsLenAux (n + 1) n

/-- The inner shift of `insertionSortCmpFunc`: move `data[j]` left while it
sorts before its predecessor (structural recursion on `j`; the Go loop
condition `j > a` fails at `j = 0` since `a ≥ 0`). -/
def insSortInner (d : Array ipWeight) (a : Nat) : Nat → Array ipWeight
  | 0 => d
  | j + 1 =>
    if a < j + 1 ∧ sortCmp (aget d (j + 1)) (aget d j) < 0 then
      insSortInner (aswap d (j + 1) j) a j
    else d

/-- `insertionSortCmpFunc data a b`. -/
def insertionSortA (d : Array ipWeight) (a b : Nat) : Array ipWeight :=
  (List.range' (a + 1) (b - (a + 1))).foldl (fun acc i => insSortInner acc a i) d

/-- The loop of `siftDownCmpFunc` (structural recursion on a fuel bound:
`root` at least doubles each step, so any fuel of at least `hi` iterations
is sufficient; on exhaustion the loop-exit state is returned, which the
callers' fuel makes unreachable). -/
def siftDownGo (d : Array ipWeight) (root hi first : Nat) : Nat → Array ipWeight
  | 0 => d
  | fuel + 1 =>
    if 2 * root + 1 < hi then
      let child :=
        if 2 * root + 1 + 1 < hi ∧
            sortCmp (aget d (first + (2 * root + 1)))
              (aget d (first + (2 * root + 1) + 1)) < 0 then
          2 * root + 1 + 1
        else 2 * root + 1
      if ¬ sortCmp (aget d (first + root)) (aget d (first + child)) < 0 then d
      else siftDownGo (aswap d (first + root) (first + child)) child hi first fuel
    else d

/-- `heapSortCmpFunc data a b` (build the heap, then pop). -/
def heapSortA (d : Array ipWeight) (a b : Nat) : Array ipWeight :=
  let first := a
  let hi := b - a
  let d := ((List.range ((hi - 1) / 2 + 1)).reverse).foldl
    (fun acc i => siftDownGo acc i hi first hi) d
  ((List.range hi).reverse).foldl
    (fun acc i => siftDownGo (aswap acc first (first + i)) 0 i first hi) d

/-- `xorshift.Next` (64-bit). -/
def xorshiftNext (r : Nat) : Nat :=
  let r := (r ^^^ (r <<< 13)) % 2 ^ 64
  let r := r ^^^ (r >>> 7)
  (r ^^^ (r <<< 17)) % 2 ^ 64

/-- `breakPatternsCmpFunc`: three pseudo-random swaps near the middle. -/
def breakPatternsA (d : Array ipWeight) (a b : Nat) : Array ipWeight :=
  let length := b - a
  if length ≥ 8 then
    let modulus := 1 <<< bitsLen length
    let idx := a + length / 4 * 2 - 1
    let r1 := xorshiftNext length
    let o1 := let o := r1 &&& (modulus - 1); if o ≥ length then o - length else o
    let d := aswap d (idx - 1) (a + o1)
    let r2 := xorshiftNext r1
    let o2 := let o := r2 &&& (modulus - 1); if o ≥ length then o - length else o
    let d := aswap d idx (a + o2)
    let r3 := xorshiftNext r2
    let o3 := let o := r3 &&& (modulus - 1); if o ≥ length then o - length else o
    aswap d (idx + 1) (a + o3)
  else d

/-- `sortedHint`. -/
inductive SortedHint
  | unknownH
  | increasingH
  | decreasingH
deriving DecidableEq

/-- `order2CmpFunc`: order two indices by their elements, counting swaps. -/
def order2A (d : Array ipWeight) (a b swaps : Nat) : Nat × Nat × Nat :=
  if sortCmp (aget d b) (aget d a) < 0 then (b, a, swaps + 1) else (a, b, swaps)

/-- `medianCmpFunc`. -/
def medianA (d : Array ipWeight) (a b c swaps : Nat) : Nat × Nat :=
  let (a1, b1, s1) := order2A d a b swaps
  let (b2, _c1, s2) := order2A d b1 c s1
  let (_a2, b3, s3) := order2A d a1 b2 s2
  (b3, s3)

/-- `medianAdjacentCmpFunc`. -/
def medianAdjacentA (d : Array ipWeight) (a swaps : Nat) : Nat × Nat :=
  medianA d (a - 1) a (a + 1) swaps

/-- `choosePivotCmpFunc`. -/
def choosePivotA (d : Array ipWeight) (a b : Nat) : Nat × SortedHint :=
  let l := b - a
  let i0 := a + l / 4 * 1
  let j0 := a + l / 4 * 2
  let k0 := a + l / 4 * 3
  let (j, swaps) :=
    if l ≥ 8 then
      if l ≥ 50 then
        let (i1, s1) := medianAdjacentA d i0 0
        let (j1, s2) := medianAdjacentA d j0 s1
        let (k1, s3) := medianAdjacentA d k0 s2
        medianA d i1 j1 k1 s3
      else medianA d i0 j0 k0 0
    else (j0, 0)
  if swaps = 0 then (j, SortedHint.increasingH)
  else if swaps = 12 then (j, SortedHint.decreasingH)
  else (j, SortedHint.unknownH)

/-- `reverseRangeCmpFunc` inner loop (structural on `j`, which strictly
decreases; the loop stops once `i < j` fails). -/
def reverseRangeA (d : Array ipWeight) (i : Nat) : Nat → Array ipWeight
  | 0 => d
  | j + 1 =>
    if i < j + 1 then reverseRangeA (aswap d i (j + 1)) (i + 1) j
    else d

/-- `reverseRangeCmpFunc data a b` reverses `data[a:b]`. -/
def reverseRangeAB (d : Array ipWeight) (a b : Nat) : Array ipWeight :=
  reverseRangeA d a (b - 1)

/-- The `for i < b && !(less)` scan of `partialInsertionSortCmpFunc`
(structural on the remaining distance `b - i`, kept as an explicit
argument; the scan starts at `scanSortedIdx d b i (b - i)`). -/
def scanSortedIdx (d : Array ipWeight) (b i : Nat) : Nat → Nat
  | 0 => i
  | k + 1 =>
    if ¬ sortCmp (aget d i) (aget d (i - 1)) < 0 then
      scanSortedIdx d b (i + 1) k
    else i

/-- The leftward shift loop of `partialInsertionSortCmpFunc` (structural on
`j`; the Go condition `j >= 1` fails at 0). -/
def shiftLeftLoop (d : Array ipWeight) : Nat → Array ipWeight
  | 0 => d
  | j + 1 =>
    if sortCmp (aget d (j + 1)) (aget d j) < 0 then
      shiftLeftLoop (aswap d (j + 1) j) j
    else d

/-- The rightward shift loop of `partialInsertionSortCmpFunc` (structural on
the remaining distance `b - j`, explicit as in `scanSortedIdx`). -/
def shiftRightLoop (d : Array ipWeight) (b j : Nat) : Nat → Array ipWeight
  | 0 => d
  | k + 1 =>
    if sortCmp (aget d j) (aget d (j - 1)) < 0 then
      shiftRightLoop (aswap d j (j - 1)) b (j + 1) k
    else d

/-- Go `partialInsertionSortCmpFunc` (`maxSteps = 5`,
`shortestShifting = 50`): its step loop, keeping the scan position `i`
across steps; returns the data and whether the range ended sorted. -/
def almostSortSteps (d : Array ipWeight) (a b i : Nat) :
    Nat → Array ipWeight × Bool
  | 0 => (d, false)
  | steps + 1 =>
    let i := scanSortedIdx d b i (b - i)
    if i = b then (d, true)
    else if b - a < 50 then (d, false)
    else
      let d := aswap d i (i - 1)
      let d := if i - a ≥ 2 then shiftLeftLoop d (i - 1) else d
      let d := if b - i ≥ 2 then shiftRightLoop d b (i + 1) (b - (i + 1)) else d
      almostSortSteps d a b i steps

/-- Array read at a Go `int` index (nonnegative and in range at every use). -/
def agetI (d : Array ipWeight) (i : Int) : ipWeight :=
  aget d i.toNat

/-- Swap at Go `int` indices. -/
def aswapI (d : Array ipWeight) (i j : Int) : Array ipWeight :=
  aswap d i.toNat j.toNat

/-- The two-pointer loop of `partitionCmpFunc`, one comparison per step
(equivalent to Go's nested scans); `i`/`j` are Go `int`s; `swapped` records
whether any interior swap happened (Go's `alreadyPartitioned` is its
negation).  Structural on a fuel bound: `j - i` drops every step, so the
callers' fuel of `(j + 2 - i).toNat` makes exhaustion unreachable (on
exhaustion the loop-exit state is returned). -/
def partitionLoop (d : Array ipWeight) (a : Nat) (i j : Int) (swapped : Bool) :
    Nat → Array ipWeight × Int × Int × Bool
  | 0 => (d, i, j, swapped)
  | fuel + 1 =>
    if i ≤ j then
      if sortCmp (agetI d i) (aget d a) < 0 then
        partitionLoop d a (i + 1) j swapped fuel
      else if ¬ sortCmp (agetI d j) (aget d a) < 0 then
        partitionLoop d a i (j - 1) swapped fuel
      else partitionLoop (aswapI d i j) a (i + 1) (j - 1) true fuel
    else (d, i, j, swapped)

/-- `partitionCmpFunc data a b pivot`. -/
def partitionA (d : Array ipWeight) (a b pivot : Nat) :
    Array ipWeight × Nat × Bool :=
  let d := aswap d a pivot
  let (d, _i, j, swapped) :=
    partitionLoop d a (Int.ofNat (a + 1)) (Int.ofNat b - 1) false (b + 2)
  (aswap d j.toNat a, j.toNat, !swapped)

/-- The two-pointer loop of `partitionEqualCmpFunc` (Go `int` pointers;
fuel as in `partitionLoop`). -/
def partitionEqualLoop (d : Array ipWeight) (a : Nat) (i j : Int) :
    Nat → Array ipWeight × Int
  | 0 => (d, i)
  | fuel + 1 =>
    if i ≤ j then
      if ¬ sortCmp (aget d a) (agetI d i) < 0 then
        partitionEqualLoop d a (i + 1) j fuel
      else if sortCmp (aget d a) (agetI d j) < 0 then
        partitionEqualLoop d a i (j - 1) fuel
      else partitionEqualLoop (aswapI d i j) a (i + 1) (j - 1) fuel
    else (d, i)

/-- `partitionEqualCmpFunc data a b pivot`. -/
def partitionEqualA (d : Array ipWeight) (a b pivot : Nat) :
    Array ipWeight × Nat :=
  let d := aswap d a pivot
  let (d, i) := partitionEqualLoop d a (Int.ofNat (a + 1)) (Int.ofNat b - 1) (b + 2)
  (d, i.toNat)

/-- `pdqsortCmpFunc data a b limit` (`maxInsertion = 12`).  The Go loop and
its recursion both become recursion here; `fuel` bounds the recursion depth
(`none` = fuel exhausted, which a caller-supplied fuel of the slice length
plus a constant makes unreachable; every theorem below evaluates to
`some`). -/
def pdqsortA : Nat → Array ipWeight → Nat → Nat → Nat → Bool → Bool →
    Option (Array ipWeight)
  | 0, _, _, _, _, _, _ => none
  | fuel + 1, d, a, b, limit, wasBalanced, wasPartitioned =>
    let length := b - a
    if length ≤ 12 then some (insertionSortA d a b)
    else if limit = 0 then some (heapSortA d a b)
    else
      let (d, limit) :=
        if wasBalanced then (d, limit) else (breakPatternsA d a b, limit - 1)
      let (pivot, hint) := choosePivotA d a b
      let (d, pivot, hint) :=
        if hint = SortedHint.decreasingH then
          (reverseRangeAB d a b, (b - 1) - (pivot - a), SortedHint.increasingH)
        else (d, pivot, hint)
      let (d, done) :=
        if wasBalanced && wasPartitioned && (hint == SortedHint.increasingH) then
          almostSortSteps d a b (a + 1) 5
        else (d, false)
      if done then some d
      else if 0 < a ∧ ¬ sortCmp (aget d (a - 1)) (aget d pivot) < 0 then
        match partitionEqualA d a b pivot with
        | (d, mid) => pdqsortA fuel d mid b limit wasBalanced wasPartitioned
      else
        match partitionA d a b pivot with
        | (d, mid, alreadyPartitioned) =>
          let wasPartitioned := alreadyPartitioned
          let leftLen := mid - a
          let rightLen := b - mid
          let balanceThreshold := length / 8
          let wasBalanced := decide (min leftLen rightLen ≥ balanceThreshold)
          if leftLen < rightLen then
            match pdqsortA fuel d a mid limit wasBalanced wasPartitioned with
            | none => none
            | some d => pdqsortA fuel d (mid + 1) b limit wasBalanced wasPartitioned
          else
            match pdqsortA fuel d (mid + 1) b limit wasBalanced wasPartitioned with
            | none => none
            | some d => pdqsortA fuel d a mid limit wasBalanced wasPartitioned

/-- `slices.SortFunc x cmp` = `pdqsortCmpFunc(x, 0, n, bits.Len(n), cmp)`. -/
def slicesSortFunc (l : List ipWeight) : Option (List ipWeight) :=
  match pdqsortA (l.length + 16) (Array.mk l) 0 l.length (bitsLen l.length)
      true true with
  | none => none
  | some arr => some arr.toList

/-- `sortWeighted` of `defip.go`: build the weight list, sort it with
`slices.SortFunc`, and write the addresses back (the `fmt.Printf` side
effect has no bearing on the returned data and is dropped). -/
def sortWeighted (list : List Addr) : Option (List Addr) :=
  if list.length = 0 then some list
  else
    let weightList := list.map (fun v => ipWeight.mk v (addrWeight v))
    match slicesSortFunc weightList with
    | none => none
    | some sorted => some (sorted.map (fun w => w.addr))

/-! ### Selection (`selectIP`, `FindDefaultIP`) -/

/-- The result of `selectIP`: the returned `*netip.Addr` (never `none` in
the code), the index-out-of-range panic of `&list[0]`, or sort-fuel
exhaustion (a model artifact, never reached in any theorem). -/
inductive SelectRes
  | ptr (a : Option Addr)
  | panicked
  | fuelOut
deriving DecidableEq

/-- `selectIP`: filter by family, sort by weight, return `&list[0]`. -/
def selectIP (kind : NetRouteKind) (list : List Addr) : SelectRes :=
  let list := goFilter list (fun i =>
    (kind == NetRouteKind.v6 && i.is6B) || (kind == NetRouteKind.v4 && i.is4B))
  match sortWeighted list with
  | none => SelectRes.fuelOut
  | some sorted =>
    match sorted with
    | [] => SelectRes.panicked
    | x :: _ => SelectRes.ptr (some x)

/-- A `net.Addr` as seen by `FindDefaultIP`: a `*net.IPNet` carrying the IP
byte slice, or any other implementation (skipped by the type assertion). -/
inductive GoNetAddr
  | ipnet (ip : List Nat)
  | nonIPNet
deriving DecidableEq

/-- The interface-resolution collaborator: `net.InterfaceByName` followed by
`iface.Addrs()`, either step may fail. -/
inductive IfaceLookup
  | nameErr (msg : String)
  | addrsErr (msg : String)
  | okAddrs (addrs : List GoNetAddr)

/-- `net.IP.To4`. -/
def ipTo4 (ip : List Nat) : Option (List Nat) :=
  if ip.length = 4 then some ip
  else if ip.length = 16 ∧ (ip.take 10).all (fun b => b == 0) ∧
      ip.getD 10 0 = 0xff ∧ ip.getD 11 0 = 0xff then
    some (ip.drop 12)
  else none

/-- The per-interface loop body of `FindDefaultIP`: type-assert, `To4`,
match the family, convert, attach the zone.  `none` models the panic of the
`[16]byte(rawAdd.IP)` conversion on a slice whose length is not 16. -/
def collectIfaceAddrs (kind : NetRouteKind) (name : String) :
    List GoNetAddr → Option (List Addr)
  | [] => some []
  | GoNetAddr.nonIPNet :: rest => collectIfaceAddrs kind name rest
  | GoNetAddr.ipnet ip :: rest =>
    match ipTo4 ip with
    | some v4 =>
      if kind ≠ NetRouteKind.v4 then collectIfaceAddrs kind name rest
      else
        let add := addrFrom4 (v4.getD 0 0) (v4.getD 1 0) (v4.getD 2 0) (v4.getD 3 0)
        let add := add.withZone name
        match collectIfaceAddrs kind name rest with
        | none => none
        | some l => some (add :: l)
    | none =>
      if kind ≠ NetRouteKind.v6 then collectIfaceAddrs kind name rest
      else if ip.length ≠ 16 then none
      else
        let add := (addrFrom16 ip).withZone name
        match collectIfaceAddrs kind name rest with
        | none => none
        | some l => some (add :: l)

/-- Insertion-ordered key set modelling `map[string]bool` plus
`for name := range ifaces` (Go iterates maps in unspecified order; the
theorems below do not depend on the order). -/
def insertKey (l : List String) (k : String) : List String :=
  if l.contains k then l else l ++ [k]

/-- The distinct interface names of the filtered routes. -/
def ifaceKeys (routes : List NetRoute) : List String :=
  routes.foldl (fun acc r => insertKey acc r.netif) []

/-- Outcome of the interface loop. -/
inductive CollectRes
  | okL (addrs : List Addr)
  | errName (name msg : String)
  | errAddrs (name msg : String)
  | panicLen

/-- The interface loop of `FindDefaultIP`. -/
def collectAllAddrs (kind : NetRouteKind) (lookup : String → IfaceLookup) :
    List String → CollectRes
  | [] => CollectRes.okL []
  | name :: rest =>
    match lookup name with
    | IfaceLookup.nameErr m => CollectRes.errName name m
    | IfaceLookup.addrsErr m => CollectRes.errAddrs name m
    | IfaceLookup.okAddrs ips =>
      match collectIfaceAddrs kind name ips with
      | none => CollectRes.panicLen
      | some l =>
        match collectAllAddrs kind lookup rest with
        | CollectRes.okL ls => CollectRes.okL (l ++ ls)
        | other => other

/-- Result of `FindDefaultIP`: an address, a typed error, or one of the
panics the code can hit. -/
inductive FDIPResult
  | okA (a : Addr)
  | errNoIP
  | errIface (name msg : String)
  | errIfaceAddrs (name msg : String)
  | panicGetRoutes (e : GoErr)
  | panicIndex
  | panicBadIPLen
  | fuelOut
deriving DecidableEq

/-- `FindDefaultIP`, parameterized by the route-source collaborator's result
(`FindRoutes()` = `getRoutes()`) and the interface-resolution collaborator. -/
def findDefaultIP (getRoutesRes : Except GoErr (List NetRoute))
    (lookup : String → IfaceLookup) (kind : NetRouteKind) : FDIPResult :=
  match getRoutesRes with
  | Except.error e => FDIPResult.panicGetRoutes e
  | Except.ok routes =>
    let routes := goFilter routes (fun i => i.hasFlags ["U", "G"])
    let names := ifaceKeys routes
    match collectAllAddrs kind lookup names with
    | CollectRes.errName n m => FDIPResult.errIface n m
    | CollectRes.errAddrs n m => FDIPResult.errIfaceAddrs n m
    | CollectRes.panicLen => FDIPResult.panicBadIPLen
    | CollectRes.okL addrs =>
      match selectIP kind addrs with
      | SelectRes.ptr (some a) => FDIPResult.okA a
      | SelectRes.ptr none => FDIPResult.errNoIP
      | SelectRes.panicked => FDIPResult.panicIndex
      | SelectRes.fuelOut => FDIPResult.fuelOut

/-! ### The netstat route-table parser (`netstat_parser.go`) -/

/-- `netstatParserState`. -/
inductive NetstatParserState
  | header
  | internetHeader
  | internet4Header
  | internet4Data
  | internet6Header
  | internet6Data
deriving DecidableEq

/-- The `map[string]int` column maps `net4Fields`/`net6Fields`.  Only the
keys `Destination`, `Gateway`, `Flags`, `Netif` are ever written or read; a
missing key reads as `0` in Go, so the cleared map is the all-zero record. -/
structure FieldsMap where
  destination : Int
  gateway : Int
  flags : Int
  netifIdx : Int
deriving DecidableEq

/-- The empty (or cleared) column map. -/
def FieldsMap.empty : FieldsMap := ⟨0, 0, 0, 0⟩

/-- `netstatParser`. -/
structure NetstatParser where
  state : NetstatParserState
  netData : List NetRoute
  net4Fields : FieldsMap
  net6Fields : FieldsMap
deriving DecidableEq

/-- `newNetstatParser()`. -/
def newNetstatParser : NetstatParser :=
  ⟨NetstatParserState.header, [], FieldsMap.empty, FieldsMap.empty⟩

/-- `(*netstatParser).reset`. -/
def resetParser (n : NetstatParser) : NetstatParser :=
  { n with state := NetstatParserState.header, netData := [],
           net4Fields := FieldsMap.empty, net6Fields := FieldsMap.empty }

/-- Modelled from the spec: the `fieldSet.fieldIdx` helper is code of this
repository whose source file is not among those at hand (only its callers
are).  Per the spec the header line is parsed "into a name→index mapping";
`fieldIdx` returns the index of the column named `name`, `-1` if absent. -/
def fieldIdxAux (name : String) : List String → Nat → Int
  | [], _ => -1
  | f :: rest, i => if f = name then Int.ofNat i else fieldIdxAux name rest (i + 1)

/-- Modelled from the spec: index of column `name` in the token list, `-1`
when absent. -/
def fieldIdx (fs : List String) (name : String) : Int :=
  fieldIdxAux name fs 0

/-- Outcome of one `feed` call: no error, a returned error, or a panic
(out-of-range slice indexing). -/
inductive FeedOutcome
  | okF
  | errF (e : GoErr)
  | panicF
deriving DecidableEq

/-- Go slice indexing `toks[i]` at an `int` index: panics (`none`) when out
of range. -/
def tokenAt (toks : List String) (i : Int) : Option String :=
  if 0 ≤ i ∧ i.toNat < toks.length then some (toks.getD i.toNat "") else none

/-- `parseHeader`. -/
def parseHeader (n : NetstatParser) (line : String) : NetstatParser × FeedOutcome :=
  if goToLower line = "routing tables" then
    ({ n with state := NetstatParserState.internetHeader }, FeedOutcome.okF)
  else (n, FeedOutcome.errF GoErr.cantParse)

/-- `parseInternetHeader`. -/
def parseInternetHeader (n : NetstatParser) (line : String) : NetstatParser :=
  if line = "" then n
  else
    let l := goToLower line
    if l = "internet:" then { n with state := NetstatParserState.internet4Header }
    else if l = "internet6:" then { n with state := NetstatParserState.internet6Header }
    else resetParser n

/-- `parseInternetHeader4`: recognize the IPv4 column-header line.  (The Go
loop writes the three wanted indices into the map one by one and resets on
the first missing one; since reset clears the map, recognizing all three
first and then writing is the same final state.) -/
def parseInternetHeader4 (n : NetstatParser) (line : String) : NetstatParser :=
  let fields := goFields line
  if fields.length < 4 then resetParser n
  else
    let dIdx := fieldIdx fields "Destination"
    let gIdx := fieldIdx fields "Gateway"
    let fIdx := fieldIdx fields "Flags"
    if dIdx = -1 ∨ gIdx = -1 ∨ fIdx = -1 then resetParser n
    else
      let iface := fieldIdx fields "Interface"
      let netif := fieldIdx fields "Netif"
      if iface = -1 ∧ netif = -1 then resetParser n
      else
        { n with state := NetstatParserState.internet4Data,
                 net4Fields := ⟨dIdx, gIdx, fIdx, if iface > 0 then iface else netif⟩ }

/-- `parseInternetHeader6`: same shape for the IPv6 section. -/
def parseInternetHeader6 (n : NetstatParser) (line : String) : NetstatParser :=
  let fields := goFields line
  if fields.length < 4 then resetParser n
  else
    let dIdx := fieldIdx fields "Destination"
    let gIdx := fieldIdx fields "Gateway"
    let fIdx := fieldIdx fields "Flags"
    if dIdx = -1 ∨ gIdx = -1 ∨ fIdx = -1 then resetParser n
    else
      let iface := fieldIdx fields "Interface"
      let netif := fieldIdx fields "Netif"
      if iface = -1 ∧ netif = -1 then resetParser n
      else
        { n with state := NetstatParserState.internet6Data,
                 net6Fields := ⟨dIdx, gIdx, fIdx, if iface > 0 then iface else netif⟩ }

/-- `parseInternet4Data`: one IPv4 data row. -/
def parseInternet4Data (n : NetstatParser) (line : String) :
    NetstatParser × FeedOutcome :=
  if line = "" then
    ({ n with state := NetstatParserState.internetHeader }, FeedOutcome.okF)
  else
    let fields := goFields line
    match tokenAt fields n.net4Fields.gateway with
    | none => (n, FeedOutcome.panicF)
    | some gtok =>
      if goContainsAny gtok "#:" then (n, FeedOutcome.okF)
      else
        match tokenAt fields n.net4Fields.destination with
        | none => (n, FeedOutcome.panicF)
        | some dtok0 =>
          let dtok := if dtok0 = "default" then "0.0.0.0" else dtok0
          match parseAddr dtok with
          | Except.error _ => (n, FeedOutcome.okF)
          | Except.ok dstIp =>
            match parseAddr gtok with
            | Except.error _ => (n, FeedOutcome.okF)
            | Except.ok gatewayIp =>
              match tokenAt fields n.net4Fields.flags with
              | none => (n, FeedOutcome.panicF)
              | some ftok =>
                match tokenAt fields n.net4Fields.netifIdx with
                | none => (n, FeedOutcome.panicF)
                | some ntok =>
                  ({ n with netData := n.netData ++
                      [⟨NetRouteKind.v4, dstIp, ftok, ntok, gatewayIp⟩] },
                   FeedOutcome.okF)

/-- `parseInternet6Data`: one IPv6 data row.  An unparseable destination is
returned as an error; an unparseable gateway is skipped. -/
def parseInternet6Data (n : NetstatParser) (line : String) :
    NetstatParser × FeedOutcome :=
  if line = "" then
    ({ n with state := NetstatParserState.internetHeader }, FeedOutcome.okF)
  else
    let fields := goFields line
    match tokenAt fields n.net6Fields.gateway with
    | none => (n, FeedOutcome.panicF)
    | some gtok =>
      if goContainsRune gtok '#' then (n, FeedOutcome.okF)
      else
        match tokenAt fields n.net6Fields.destination with
        | none => (n, FeedOutcome.panicF)
        | some dtok0 =>
          let dtok1 := if dtok0 = "default" then "::" else dtok0
          let dtok := if goContainsRune dtok1 '/' then splitSlashHead dtok1 else dtok1
          match parseAddr dtok with
          | Except.error e => (n, FeedOutcome.errF (GoErr.addrParse e))
          | Except.ok dstIp =>
            match parseAddr gtok with
            | Except.error _ => (n, FeedOutcome.okF)
            | Except.ok gatewayIp =>
              match tokenAt fields n.net6Fields.flags with
              | none => (n, FeedOutcome.panicF)
              | some ftok =>
                match tokenAt fields n.net6Fields.netifIdx with
                | none => (n, FeedOutcome.panicF)
                | some ntok =>
                  ({ n with netData := n.netData ++
                      [⟨NetRouteKind.v6, dstIp, ftok, ntok, gatewayIp⟩] },
                   FeedOutcome.okF)

/-- `(*netstatParser).feed`. -/
def feed (n : NetstatParser) (line : String) : NetstatParser × FeedOutcome :=
  let line := trimSpace line
  match n.state with
  | NetstatParserState.header => parseHeader n line
  | NetstatParserState.internetHeader => (parseInternetHeader n line, FeedOutcome.okF)
  | NetstatParserState.internet4Header => (parseInternetHeader4 n line, FeedOutcome.okF)
  | NetstatParserState.internet4Data => parseInternet4Data n line
  | NetstatParserState.internet6Header => (parseInternetHeader6 n line, FeedOutcome.okF)
  | NetstatParserState.internet6Data => parseInternet6Data n line

/-- `(*netstatParser).result`: a snapshot copy of the accumulated routes. -/
def result (n : NetstatParser) : List NetRoute :=
  n.netData

/-! ### Concrete inputs for the claim theorems -/

/-- Claim 1: a route whose flags are `UGH`. -/
def c1route : NetRoute :=
  ⟨NetRouteKind.v4, addrFrom4 0 0 0 0, "UGH", "en0", addrFrom4 10 0 0 1⟩

/-- Claim 1: interface resolution mapping `en0` to one private IPv4 address. -/
def c1lookup : String → IfaceLookup := fun n =>
  if n = "en0" then IfaceLookup.okAddrs [GoNetAddr.ipnet [192, 168, 1, 5]]
  else IfaceLookup.nameErr "no such network interface"

/-- Claim 2: a `U`+`G` IPv4 route through `en1`. -/
def c2route : NetRoute :=
  ⟨NetRouteKind.v4, addrFrom4 0 0 0 0, "UGS", "en1", addrFrom4 10 0 0 1⟩

/-- Claim 2: `en1` resolves to a single IPv4 address (so a V6 query has an
empty candidate set after family matching). -/
def c2lookup : String → IfaceLookup := fun n =>
  if n = "en1" then IfaceLookup.okAddrs [GoNetAddr.ipnet [10, 0, 0, 7]]
  else IfaceLookup.nameErr "no such network interface"

/-- Claim 3: an interface resolver (never reached). -/
def c3lookup : String → IfaceLookup := fun _ => IfaceLookup.okAddrs []

/-- Claim 4: a global-unicast IPv6 address `2001:db8::i` (weight 1). -/
def c4g (i : Nat) : Addr := ⟨0x20010db800000000, i, Zflag.z6noz⟩

/-- Claim 4: a link-local IPv6 address `fe80::i` (weight 0). -/
def c4l (i : Nat) : Addr := ⟨0xfe80000000000000, i, Zflag.z6noz⟩

/-- Claim 4: thirteen candidates of alternating weight 1 and 0. -/
def c4list : List Addr :=
  [c4g 0, c4l 1, c4g 2, c4l 3, c4g 4, c4l 5, c4g 6, c4l 7, c4g 8, c4l 9,
   c4g 10, c4l 11, c4g 12]

/-- Claim 4: the order `sortWeighted` actually produces on `c4list`. -/
def c4out : List Addr :=
  [c4g 8, c4g 12, c4g 2, c4g 0, c4g 4, c4g 10, c4g 6,
   c4l 3, c4l 7, c4l 9, c4l 5, c4l 11, c4l 1]

/-- Claim 4: the order a stable descending-by-weight sort of `c4list`
produces. -/
def c4stable : List Addr :=
  [c4g 0, c4g 2, c4g 4, c4g 6, c4g 8, c4g 10, c4g 12,
   c4l 1, c4l 3, c4l 5, c4l 7, c4l 9, c4l 11]

/-- Claim 5: a parser about to read the IPv4 column-header line. -/
def c5parser : NetstatParser :=
  { newNetstatParser with state := NetstatParserState.internet4Header }

/-- Claim 6: a parser in the IPv6 data state with columns
Destination=0, Gateway=1, Flags=2, Netif=3. -/
def c6parser : NetstatParser :=
  ⟨NetstatParserState.internet6Data, [], FieldsMap.empty, ⟨0, 1, 2, 3⟩⟩

/-- Claim 6: the corresponding parser in the IPv4 data state. -/
def c6parser4 : NetstatParser :=
  ⟨NetstatParserState.internet4Data, [], ⟨0, 1, 2, 3⟩, FieldsMap.empty⟩

/-- Claim 8: the ULA range test exactly as the claim words it: the address
lies in `fd00::` through `fdff:ffff:ffff:ffff:ffff:ffff:ffff:ffff`
inclusive (on the 128-bit value; IPv6 only). -/
def claimIsULA (a : Addr) : Bool :=
  a.is6B && decide (0xfd00000000000000 ≤ a.hi) &&
    decide (a.hi ≤ 0xfdffffffffffffff)

/-- Claim 8: the weight exactly as the claim words it. -/
def claimWeight (a : Addr) : Nat :=
  (if claimIsULA a then 2 else 0) + (if a.isPrivate then 1 else 0) +
    (if a.isGlobalUnicast then 1 else 0)

/-- Claim 8: the top of the ULA range carrying a zone. -/
def c8addr : Addr :=
  ⟨0xfdffffffffffffff, 0xffffffffffffffff, Zflag.zoneOf "eth0"⟩

/-- Claim 9: an already-parsed route held by the parser. -/
def c9route : NetRoute :=
  ⟨NetRouteKind.v4, addrFrom4 0 0 0 0, "UGS", "en0", addrFrom4 10 0 0 1⟩

/-- Claim 9: a parser back in the section-dispatch state with one
accumulated route. -/
def c9parser : NetstatParser :=
  ⟨NetstatParserState.internetHeader, [c9route], FieldsMap.empty, FieldsMap.empty⟩

/-- Claim 10: a parser in the IPv4 data state with columns
Destination=0, Gateway=1, Flags=2, Netif=3. -/
def c10parser : NetstatParser :=
  ⟨NetstatParserState.internet4Data, [], ⟨0, 1, 2, 3⟩, FieldsMap.empty⟩

/-- The destination normalization of `parseInternet6Data` (rewrite the
literal `default` to `::`, strip a CIDR suffix), factored out verbatim for
stating claim 6. -/
def v6NormDest (d : String) : String :=
  let d1 := if d = "default" then "::" else d
  if goContainsRune d1 '/' then splitSlashHead d1 else d1

/-- The destination normalization of `parseInternet4Data`. -/
def v4NormDest (d : String) : String :=
  if d = "default" then "0.0.0.0" else d

/-! ## Theorems

Shared helper lemmas, then one theorem (plus witness or counterexample
where applicable) per claim. -/

/-- `HasFlags ["U", "G"]` is the conjunction of the two containment tests. -/
theorem hasFlags_UG (r : NetRoute) :
    r.hasFlags ["U", "G"] = (goContains r.flags "U" && goContains r.flags "G") := by
  simp [NetRoute.hasFlags]

/-- A string equals the empty string iff its character list is empty. -/
theorem stringMk_eq_empty (l : List Char) : String.mk l = "" ↔ l = [] := by
  constructor
  · intro h
    exact congrArg String.data h
  · rintro rfl
    rfl

/-- Comparing any string with the empty string is nonnegative. -/
theorem cmpStr_empty_nonneg (s : String) : 0 ≤ cmpStr s "" := by
  cases s with
  | mk l => cases l <;> simp [cmpStr, cmpCharList]

/-- Comparing with the empty string is nonpositive only for the empty
string. -/
theorem cmpStr_empty_le_zero (s : String) : cmpStr s "" ≤ 0 ↔ s = "" := by
  cases s with
  | mk l =>
    cases l with
    | nil => simp [cmpStr, cmpCharList, stringMk_eq_empty]
    | cons c cs => simp [cmpStr, cmpCharList, stringMk_eq_empty]

/-- The values of the two `MustParseAddr` package variables. -/
theorem ulaStart_val : ulaStart = ⟨0xfd00000000000000, 0, Zflag.z6noz⟩ := by decide

/-- The value of `ulaEnd`. -/
theorem ulaEnd_val :
    ulaEnd = ⟨0xfdffffffffffffff, 0xffffffffffffffff, Zflag.z6noz⟩ := by decide

/-- Membership in the `filter` helper of `defip.go`. -/
theorem mem_goFilter {α : Type} (fn : α → Bool) (l : List α) (x : α) :
    x ∈ goFilter l fn ↔ x ∈ l ∧ fn x = true := by
  induction l with
  | nil => simp [goFilter]
  | cons v rest ih =>
    show x ∈ (if fn v = true then v :: goFilter rest fn else goFilter rest fn) ↔ _
    by_cases hv : fn v = true
    · rw [if_pos hv]
      simp only [List.mem_cons, ih]
      constructor
      · rintro (rfl | ⟨hm, hx⟩)
        · exact ⟨Or.inl rfl, hv⟩
        · exact ⟨Or.inr hm, hx⟩
      · rintro ⟨(rfl | hm), hx⟩
        · exact Or.inl rfl
        · exact Or.inr ⟨hm, hx⟩
    · rw [if_neg hv, ih]
      simp only [List.mem_cons]
      constructor
      · rintro ⟨hm, hx⟩
        exact ⟨Or.inr hm, hx⟩
      · rintro ⟨(rfl | hm), hx⟩
        · exact absurd hx hv
        · exact ⟨hm, hx⟩

/-- Claim C1 (corrected statement).  `FindDefaultIP` filters its routes with
`HasFlags("U", "G")` alone: a route is a default-gateway candidate iff its
flags contain `U` and `G`; the flag `H` is not excluded (the `U`+`G`+not-`H`
test of `filterRoute` is used only by `NetRouteList.FindDefaults`), so both
`UG` and `UGH` routes are eligible. -/
theorem claim1_amended :
    (∀ (rs : List NetRoute) (r : NetRoute),
      r ∈ goFilter rs (fun i => i.hasFlags ["U", "G"]) ↔
        r ∈ rs ∧ goContains r.flags "U" = true ∧ goContains r.flags "G" = true) ∧
    (∀ r : NetRoute, r.flags = "UG" → r.hasFlags ["U", "G"] = true) ∧
    (∀ r : NetRoute, r.flags = "UGH" → r.hasFlags ["U", "G"] = true) := by
  refine ⟨fun rs r => ?_, fun r h => ?_, fun r h => ?_⟩
  · simp only [mem_goFilter, hasFlags_UG, Bool.and_eq_true]
  · rw [hasFlags_UG, h]; decide
  · rw [hasFlags_UG, h]; decide

/-- Claim C1 witness: the iff and the `UGH` eligibility at a concrete
route. -/
theorem claim1_witness :
    (c1route ∈ goFilter [c1route] (fun i => i.hasFlags ["U", "G"]) ↔
      c1route ∈ [c1route] ∧ goContains c1route.flags "U" = true ∧
        goContains c1route.flags "G" = true) ∧
    c1route.flags = "UGH" ∧ NetRoute.hasFlags c1route ["U", "G"] = true :=
  ⟨claim1_amended.1 [c1route] c1route, rfl, claim1_amended.2.2 c1route rfl⟩

/-- Claim C1, counterexample to the claim as stated: a route with flags
`UGH` (which `filterRoute` rejects) is nevertheless used by `FindDefaultIP`
as its only default-gateway candidate — the returned address can only come
from that route's interface.  The claim says a `UGH` route is never a
candidate, which would leave no candidate and hence no address here. -/
theorem claim1_counterexample :
    c1route.flags = "UGH" ∧ filterRoute c1route = false ∧
    findDefaultIP (Except.ok [c1route]) c1lookup NetRouteKind.v4 =
      FDIPResult.okA (addrFrom4 192 168 1 5) :=
  ⟨rfl, by decide, by decide⟩

/-- Claim C2 (code bug).  With an empty candidate set after filtering and
family matching, `FindDefaultIP` does not return `ErrNoIP` (contradicting
its own documentation comment): `selectIP` evaluates `&list[0]` on an empty
slice, an out-of-range panic.  Shown for an empty route list under both
kinds, and for a `U`+`G` route whose interface has only an address of the
other family. -/
theorem claim2_failing_eval :
    findDefaultIP (Except.ok []) c2lookup NetRouteKind.v4 = FDIPResult.panicIndex ∧
    findDefaultIP (Except.ok []) c2lookup NetRouteKind.v6 = FDIPResult.panicIndex ∧
    findDefaultIP (Except.ok [c2route]) c2lookup NetRouteKind.v6 =
      FDIPResult.panicIndex :=
  ⟨by decide, by decide, by decide⟩

/-- Claim C3 (code bug).  When the route-source collaborator fails,
`FindDefaultIP` does not return the error: it calls `panic(err)`.  The
general fact and the `NotImplemented` instance. -/
theorem claim3_failing_eval :
    findDefaultIP (Except.error GoErr.notImplemented) c3lookup NetRouteKind.v4 =
      FDIPResult.panicGetRoutes GoErr.notImplemented ∧
    findDefaultIP (Except.error GoErr.cantParse) c3lookup NetRouteKind.v6 =
      FDIPResult.panicGetRoutes GoErr.cantParse ∧
    (∀ (e : GoErr) (lookup : String → IfaceLookup) (kind : NetRouteKind),
      findDefaultIP (Except.error e) lookup kind = FDIPResult.panicGetRoutes e) :=
  ⟨rfl, rfl, fun _ _ _ => rfl⟩

set_option maxRecDepth 20000 in
/-- Claim C4 (code bug).  `sortWeighted` sorts with `slices.SortFunc`
(pdqsort), which is not stable: on thirteen candidates of alternating
weights 1 and 0, the equal-weight addresses do not keep their relative
order — the first element of the result is the address originally at index
8, not the first weight-1 address.  A stable descending sort (`c4stable`)
would be returned otherwise. -/
theorem claim4_failing_eval :
    sortWeighted c4list = some c4out ∧
    addrWeight (c4g 8) = addrWeight (c4g 0) ∧
    c4out.head? = some (c4g 8) ∧
    c4stable.head? = some (c4g 0) ∧
    c4out ≠ c4stable :=
  ⟨by decide, by decide, by decide, by decide, by decide⟩

/-- Claim C5 (corrected statement).  When the column-header line of an
IPv4 or IPv6 section contains the three wanted columns and both an
`Interface` and a `Netif` column, the recorded interface-name column is
`Interface`'s index only when that index is positive; when `Interface` is
the first column (index 0), `Netif`'s index is recorded instead (the code
tests `iface > 0`, not `iface != -1`). -/
theorem claim5_amended :
    (∀ (n : NetstatParser) (line : String),
      n.state = NetstatParserState.internet4Header →
      ¬ (goFields (trimSpace line)).length < 4 →
      ¬ (fieldIdx (goFields (trimSpace line)) "Destination" = -1 ∨
          fieldIdx (goFields (trimSpace line)) "Gateway" = -1 ∨
          fieldIdx (goFields (trimSpace line)) "Flags" = -1) →
      0 ≤ fieldIdx (goFields (trimSpace line)) "Interface" →
      0 ≤ fieldIdx (goFields (trimSpace line)) "Netif" →
      (feed n line).1.net4Fields.netifIdx =
        (if 0 < fieldIdx (goFields (trimSpace line)) "Interface" then
          fieldIdx (goFields (trimSpace line)) "Interface"
        else fieldIdx (goFields (trimSpace line)) "Netif") ∧
      (feed n line).1.state = NetstatParserState.internet4Data) ∧
    (∀ (n : NetstatParser) (line : String),
      n.state = NetstatParserState.internet6Header →
      ¬ (goFields (trimSpace line)).length < 4 →
      ¬ (fieldIdx (goFields (trimSpace line)) "Destination" = -1 ∨
          fieldIdx (goFields (trimSpace line)) "Gateway" = -1 ∨
          fieldIdx (goFields (trimSpace line)) "Flags" = -1) →
      0 ≤ fieldIdx (goFields (trimSpace line)) "Interface" →
      0 ≤ fieldIdx (goFields (trimSpace line)) "Netif" →
      (feed n line).1.net6Fields.netifIdx =
        (if 0 < fieldIdx (goFields (trimSpace line)) "Interface" then
          fieldIdx (goFields (trimSpace line)) "Interface"
        else fieldIdx (goFields (trimSpace line)) "Netif") ∧
      (feed n line).1.state = NetstatParserState.internet6Data) := by
  constructor
  · intro n line hstate hlen hwanted hiface hnetif
    have h3 : ¬ (fieldIdx (goFields (trimSpace line)) "Interface" = -1 ∧
        fieldIdx (goFields (trimSpace line)) "Netif" = -1) := by
      rintro ⟨h, _⟩
      omega
    simp only [feed, hstate, parseInternetHeader4]
    rw [if_neg hlen, if_neg hwanted, if_neg h3]
    exact ⟨rfl, rfl⟩
  · intro n line hstate hlen hwanted hiface hnetif
    have h3 : ¬ (fieldIdx (goFields (trimSpace line)) "Interface" = -1 ∧
        fieldIdx (goFields (trimSpace line)) "Netif" = -1) := by
      rintro ⟨h, _⟩
      omega
    simp only [feed, hstate, parseInternetHeader6]
    rw [if_neg hlen, if_neg hwanted, if_neg h3]
    exact ⟨rfl, rfl⟩

/-- Claim C5 witness: a header with `Interface` at a positive index records
`Interface`'s index. -/
theorem claim5_witness :
    (feed c5parser "Destination Gateway Flags Interface Netif").1.net4Fields.netifIdx =
      (if 0 < fieldIdx (goFields (trimSpace "Destination Gateway Flags Interface Netif"))
          "Interface" then
        fieldIdx (goFields (trimSpace "Destination Gateway Flags Interface Netif"))
          "Interface"
      else
        fieldIdx (goFields (trimSpace "Destination Gateway Flags Interface Netif"))
          "Netif") ∧
    (feed c5parser "Destination Gateway Flags Interface Netif").1.state =
      NetstatParserState.internet4Data :=
  claim5_amended.1 c5parser "Destination Gateway Flags Interface Netif" rfl
    (by decide) (by decide) (by decide) (by decide)

/-- Claim C5, counterexample to the claim as stated: with both columns
present and `Interface` first (index 0), the parser records `Netif`'s
index 4, not `Interface`'s index 0. -/
theorem claim5_counterexample :
    fieldIdx (goFields "Interface Destination Gateway Flags Netif") "Interface" = 0 ∧
    fieldIdx (goFields "Interface Destination Gateway Flags Netif") "Netif" = 4 ∧
    (feed c5parser "Interface Destination Gateway Flags Netif").1.net4Fields.netifIdx = 4 ∧
    (feed c5parser "Interface Destination Gateway Flags Netif").1.state =
      NetstatParserState.internet4Data :=
  ⟨by decide, by decide, by decide, by decide⟩

/-- Claim C7 (corrected statement).  For a parser in the `Header` state,
`feed(line)` returns `CantParse` (leaving the parser unchanged) iff the
line, after Go `strings.TrimSpace`, does not case-insensitively equal
"routing tables"; on a match it returns no error and moves to
`InternetHeader`. -/
theorem claim7_amended :
    ∀ (n : NetstatParser) (line : String),
      n.state = NetstatParserState.header →
      (((feed n line).2 = FeedOutcome.errF GoErr.cantParse ∧ (feed n line).1 = n) ↔
        goToLower (trimSpace line) ≠ "routing tables") ∧
      (goToLower (trimSpace line) = "routing tables" →
        feed n line =
          ({ n with state := NetstatParserState.internetHeader }, FeedOutcome.okF)) := by
  intro n line hstate
  have hfeed : feed n line = parseHeader n (trimSpace line) := by
    simp [feed, hstate]
  constructor
  · rw [hfeed]
    unfold parseHeader
    by_cases hc : goToLower (trimSpace line) = "routing tables"
    · rw [if_pos hc]
      simp [hc]
    · rw [if_neg hc]
      simp [hc]
  · intro hc
    rw [hfeed]
    unfold parseHeader
    rw [if_pos hc]

/-- Claim C7 witness: a garbage first line yields `CantParse`, the matching
banner moves to `InternetHeader`. -/
theorem claim7_witness :
    ((((feed newNetstatParser "bogus").2 = FeedOutcome.errF GoErr.cantParse ∧
        (feed newNetstatParser "bogus").1 = newNetstatParser) ↔
      goToLower (trimSpace "bogus") ≠ "routing tables") ∧
      (goToLower (trimSpace "bogus") = "routing tables" →
        feed newNetstatParser "bogus" =
          ({ newNetstatParser with state := NetstatParserState.internetHeader },
            FeedOutcome.okF))) :=
  claim7_amended newNetstatParser "bogus" rfl

/-- Claim C7, counterexample to the claim as stated: the line
`"  Routing Tables  "` does not case-insensitively equal "routing tables"
(it carries surrounding white space), yet `feed` returns no error and
transitions, because `feed` trims the line first. -/
theorem claim7_counterexample :
    goToLower "  Routing Tables  " ≠ "routing tables" ∧
    feed newNetstatParser "  Routing Tables  " =
      ({ newNetstatParser with state := NetstatParserState.internetHeader },
        FeedOutcome.okF) :=
  ⟨by decide, by decide⟩

/-- Claim C9 (corrected statement).  In the `InternetHeader` state, a line
that is non-blank after trimming and whose trimmed, lower-cased form is
neither "internet:" nor "internet6:" resets the parser (state `Header`, all
accumulated routes discarded, `result` empty) with no error; a line that is
blank after trimming leaves everything unchanged. -/
theorem claim9_amended :
    ∀ (n : NetstatParser) (line : String),
      n.state = NetstatParserState.internetHeader →
      ((trimSpace line ≠ "" ∧ goToLower (trimSpace line) ≠ "internet:" ∧
          goToLower (trimSpace line) ≠ "internet6:") →
        feed n line = (resetParser n, FeedOutcome.okF) ∧
        result (resetParser n) = [] ∧
        (resetParser n).state = NetstatParserState.header) ∧
      (trimSpace line = "" → feed n line = (n, FeedOutcome.okF)) := by
  intro n line hstate
  have hfeed : feed n line = (parseInternetHeader n (trimSpace line), FeedOutcome.okF) := by
    simp [feed, hstate]
  constructor
  · rintro ⟨hne, h1, h2⟩
    rw [hfeed]
    simp only [parseInternetHeader]
    rw [if_neg hne, if_neg h1, if_neg h2]
    exact ⟨rfl, rfl, rfl⟩
  · intro he
    rw [hfeed]
    simp only [parseInternetHeader]
    rw [if_pos he]

/-- Claim C9 witness: an unrecognized section header resets a parser that
holds one route. -/
theorem claim9_witness :
    feed c9parser "Another-Table:" = (resetParser c9parser, FeedOutcome.okF) ∧
    result (resetParser c9parser) = [] ∧
    (resetParser c9parser).state = NetstatParserState.header :=
  (claim9_amended c9parser "Another-Table:" rfl).1 ⟨by decide, by decide, by decide⟩

/-- Claim C9, counterexample to the claim as stated: the non-blank line
`"  Internet:  "` is not case-insensitively equal to "internet:" (it
carries white space), so per the claim it must reset the parser and empty
the routes; instead `feed` trims it, recognizes the section, keeps the
accumulated route and moves to `Internet4Header`. -/
theorem claim9_counterexample :
    trimSpace "  Internet:  " ≠ "" ∧
    goToLower "  Internet:  " ≠ "internet:" ∧
    goToLower "  Internet:  " ≠ "internet6:" ∧
    feed c9parser "  Internet:  " =
      ({ c9parser with state := NetstatParserState.internet4Header },
        FeedOutcome.okF) ∧
    result (feed c9parser "  Internet:  ").1 = [c9route] :=
  ⟨by decide, by decide, by decide, by decide, by decide⟩

/-- Characterization of the `Compare`-based `isULA` in terms of the 128-bit
value and the zone: inside `[fd00::, fdff:…:ffff]` with the top-of-range
value additionally requiring an empty zone. -/
theorem isULA_char (a : Addr) (hl : a.lo < 2 ^ 64) :
    isULA a = true ↔
      (a.is6B = true ∧ 0xfd00000000000000 ≤ a.hi ∧ a.hi ≤ 0xfdffffffffffffff ∧
        (a.hi < 0xfdffffffffffffff ∨ a.lo < 0xffffffffffffffff ∨ a.zoneStr = "")) := by
  obtain ⟨hi, lo, z⟩ := a
  unfold isULA
  rw [ulaStart_val, ulaEnd_val]
  unfold Addr.compareA
  cases z with
  | z0 =>
    simp [Addr.bitLenA, Addr.is6B]
  | z4 =>
    simp [Addr.bitLenA, Addr.is6B]
  | z6noz =>
    simp only [Addr.bitLenA, Addr.is6B, Addr.zoneStr, Bool.and_eq_true,
      decide_eq_true_iff, cmpStr_empty_nonneg]
    simp only [cmpStr, cmpCharList]
    split_ifs <;> simp_all <;> omega
  | zoneOf s =>
    simp only [Addr.bitLenA, Addr.is6B, Addr.zoneStr, Bool.and_eq_true,
      decide_eq_true_iff]
    split_ifs <;>
      simp_all [cmpStr_empty_le_zero, cmpStr_empty_nonneg] <;>
      first
      | omega
      | (refine ⟨fun hs => Or.inr (Or.inr hs), fun hcl => ?_⟩ <;>
          rcases hcl with hcl | hcl | hcl <;> first | omega | exact hcl)

/-- The accumulated weight of `sortWeighted` as a sum of its three
summands. -/
theorem addrWeight_eq (a : Addr) :
    addrWeight a = (if isULA a = true then 2 else 0) +
      (if a.isPrivate = true then 1 else 0) +
      (if a.isGlobalUnicast = true then 1 else 0) := by
  simp only [addrWeight]
  split_ifs <;> omega

/-- Claim C8 (corrected statement).  The weight of a candidate address is
the claimed sum, except that the ULA bonus follows `netip.Addr.Compare`,
which also compares zones: the top-of-range value
`fdff:ffff:ffff:ffff:ffff:ffff:ffff:ffff` receives the bonus only with an
empty zone.  IPv4 addresses never receive the ULA bonus, and every address
the code counts as ULA lies in the claimed range. -/
theorem claim8_amended :
    ∀ (a : Addr), a.lo < 2 ^ 64 →
      (addrWeight a =
        (if a.is6B = true ∧ 0xfd00000000000000 ≤ a.hi ∧ a.hi ≤ 0xfdffffffffffffff ∧
            (a.hi < 0xfdffffffffffffff ∨ a.lo < 0xffffffffffffffff ∨ a.zoneStr = "")
          then 2 else 0) +
        (if a.isPrivate = true then 1 else 0) +
        (if a.isGlobalUnicast = true then 1 else 0)) ∧
      (a.is4B = true → isULA a = false) ∧
      (isULA a = true → claimIsULA a = true) := by
  intro a hl
  refine ⟨?_, ?_, ?_⟩
  · rw [addrWeight_eq a, if_congr (isULA_char a hl) rfl rfl]
  · intro h4
    cases hI : isULA a
    · rfl
    · exfalso
      have h6 := ((isULA_char a hl).mp hI).1
      rw [Addr.is4B, beq_iff_eq] at h4
      rw [Addr.is6B] at h6
      simp [h4] at h6
  · intro hu
    have h := (isULA_char a hl).mp hu
    unfold claimIsULA
    simp [h.1, h.2.1, h.2.2.1]

/-- Claim C8 witness: the characterization at `fd12::1` (weight 4: ULA,
private and global unicast). -/
theorem claim8_witness :
    (Addr.mk 0xfd12000000000000 1 Zflag.z6noz).lo < 2 ^ 64 ∧
    addrWeight ⟨0xfd12000000000000, 1, Zflag.z6noz⟩ =
      (if (Addr.mk 0xfd12000000000000 1 Zflag.z6noz).is6B = true ∧
          0xfd00000000000000 ≤ (Addr.mk 0xfd12000000000000 1 Zflag.z6noz).hi ∧
          (Addr.mk 0xfd12000000000000 1 Zflag.z6noz).hi ≤ 0xfdffffffffffffff ∧
          ((Addr.mk 0xfd12000000000000 1 Zflag.z6noz).hi < 0xfdffffffffffffff ∨
            (Addr.mk 0xfd12000000000000 1 Zflag.z6noz).lo < 0xffffffffffffffff ∨
            (Addr.mk 0xfd12000000000000 1 Zflag.z6noz).zoneStr = "")
        then 2 else 0) +
      (if (Addr.mk 0xfd12000000000000 1 Zflag.z6noz).isPrivate = true then 1 else 0) +
      (if (Addr.mk 0xfd12000000000000 1 Zflag.z6noz).isGlobalUnicast = true then 1
        else 0) :=
  ⟨by decide, (claim8_amended ⟨0xfd12000000000000, 1, Zflag.z6noz⟩ (by decide)).1⟩

/-- Claim C8, counterexample to the claim as stated: the top-of-range
address with zone `eth0` lies in the claimed inclusive ULA range (and is
private and global unicast), so the claim's weight is 4; the code's
zone-aware comparison denies the ULA bonus and computes 2. -/
theorem claim8_counterexample :
    claimIsULA c8addr = true ∧ c8addr.isPrivate = true ∧
    c8addr.isGlobalUnicast = true ∧ claimWeight c8addr = 4 ∧
    addrWeight c8addr = 2 :=
  ⟨by decide, by decide, by decide, by decide, by decide⟩

/-- Claim C6 (corrected statement).  Parse-failure handling is asymmetric
between the families, with one precedence caveat the claim misses: the
gateway link-level test runs first.  In `Internet6Data`, on a non-blank row
whose gateway token does not contain `#`, an unparseable (normalized)
destination makes `feed` return the parse error, while an unparseable
gateway is silently skipped; in `Internet4Data`, on a row whose gateway
token contains neither `#` nor `:`, unparseable destinations and gateways
are both silently skipped.  In every case the parser (and so the route
list) is unchanged. -/
theorem claim6_amended :
    (∀ (n : NetstatParser) (line g d : String) (e : AddrParseErr),
      n.state = NetstatParserState.internet6Data →
      trimSpace line ≠ "" →
      tokenAt (goFields (trimSpace line)) n.net6Fields.gateway = some g →
      goContainsRune g '#' = false →
      tokenAt (goFields (trimSpace line)) n.net6Fields.destination = some d →
      parseAddr (v6NormDest d) = Except.error e →
      feed n line = (n, FeedOutcome.errF (GoErr.addrParse e))) ∧
    (∀ (n : NetstatParser) (line g d : String) (a : Addr) (e : AddrParseErr),
      n.state = NetstatParserState.internet6Data →
      trimSpace line ≠ "" →
      tokenAt (goFields (trimSpace line)) n.net6Fields.gateway = some g →
      goContainsRune g '#' = false →
      tokenAt (goFields (trimSpace line)) n.net6Fields.destination = some d →
      parseAddr (v6NormDest d) = Except.ok a →
      parseAddr g = Except.error e →
      feed n line = (n, FeedOutcome.okF)) ∧
    (∀ (n : NetstatParser) (line g d : String) (e : AddrParseErr),
      n.state = NetstatParserState.internet4Data →
      trimSpace line ≠ "" →
      tokenAt (goFields (trimSpace line)) n.net4Fields.gateway = some g →
      goContainsAny g "#:" = false →
      tokenAt (goFields (trimSpace line)) n.net4Fields.destination = some d →
      parseAddr (v4NormDest d) = Except.error e →
      feed n line = (n, FeedOutcome.okF)) ∧
    (∀ (n : NetstatParser) (line g d : String) (a : Addr) (e : AddrParseErr),
      n.state = NetstatParserState.internet4Data →
      trimSpace line ≠ "" →
      tokenAt (goFields (trimSpace line)) n.net4Fields.gateway = some g →
      goContainsAny g "#:" = false →
      tokenAt (goFields (trimSpace line)) n.net4Fields.destination = some d →
      parseAddr (v4NormDest d) = Except.ok a →
      parseAddr g = Except.error e →
      feed n line = (n, FeedOutcome.okF)) := by
  refine ⟨?_, ?_, ?_, ?_⟩
  · intro n line g d e hstate hne hg hnoHash hd hparse
    simp only [v6NormDest] at hparse
    simp only [feed, hstate, parseInternet6Data]
    rw [if_neg hne]
    simp only [hg, hnoHash, hd, hparse, Bool.false_eq_true, if_false]
  · intro n line g d a e hstate hne hg hnoHash hd hparse hgw
    simp only [v6NormDest] at hparse
    simp only [feed, hstate, parseInternet6Data]
    rw [if_neg hne]
    simp only [hg, hnoHash, hd, hparse, hgw, Bool.false_eq_true, if_false]
  · intro n line g d e hstate hne hg hnoHash hd hparse
    simp only [v4NormDest] at hparse
    simp only [feed, hstate, parseInternet4Data]
    rw [if_neg hne]
    simp only [hg, hnoHash, hd, hparse, Bool.false_eq_true, if_false]
  · intro n line g d a e hstate hne hg hnoHash hd hparse hgw
    simp only [v4NormDest] at hparse
    simp only [feed, hstate, parseInternet4Data]
    rw [if_neg hne]
    simp only [hg, hnoHash, hd, hparse, hgw, Bool.false_eq_true, if_false]

/-- Claim C6 witness: the four behaviors at concrete rows under the column
map Destination=0, Gateway=1, Flags=2, Netif=3. -/
theorem claim6_witness :
    feed c6parser "zzz fe80::2 UG en0" =
      (c6parser, FeedOutcome.errF (GoErr.addrParse ⟨"zzz", "unable to parse IP"⟩)) ∧
    feed c6parser "2001:db8::/32 zzz UG en0" = (c6parser, FeedOutcome.okF) ∧
    feed c6parser4 "zzz 10.0.0.1 UG en0" = (c6parser4, FeedOutcome.okF) ∧
    feed c6parser4 "10.0.0.0 zzz UG en0" = (c6parser4, FeedOutcome.okF) :=
  ⟨claim6_amended.1 c6parser "zzz fe80::2 UG en0" "fe80::2" "zzz"
      ⟨"zzz", "unable to parse IP"⟩ rfl
      (by decide) (by rfl) (by rfl) (by rfl) (by rfl),
    claim6_amended.2.1 c6parser "2001:db8::/32 zzz UG en0" "zzz" "2001:db8::/32"
      ⟨0x20010db800000000, 0, Zflag.z6noz⟩ ⟨"zzz", "unable to parse IP"⟩ rfl
      (by decide) (by rfl) (by rfl) (by rfl) (by rfl) (by rfl),
    claim6_amended.2.2.1 c6parser4 "zzz 10.0.0.1 UG en0" "10.0.0.1" "zzz"
      ⟨"zzz", "unable to parse IP"⟩ rfl
      (by decide) (by rfl) (by rfl) (by rfl) (by rfl),
    claim6_amended.2.2.2 c6parser4 "10.0.0.0 zzz UG en0" "zzz" "10.0.0.0"
      (addrFrom4 10 0 0 0) ⟨"zzz", "unable to parse IP"⟩ rfl
      (by decide) (by rfl) (by rfl) (by rfl) (by rfl) (by rfl)⟩

/-- Claim C6, counterexample to the claim as stated: a v6 data row whose
destination token fails address parsing but whose gateway token contains
`#` is silently skipped — `feed` returns no error, contradicting the
claimed "a row whose destination token fails address parsing makes that
feed call return the parse error". -/
theorem claim6_counterexample :
    (∃ e, parseAddr "zzz" = Except.error e) ∧
    feed c6parser "zzz link#3 UG en0" = (c6parser, FeedOutcome.okF) :=
  ⟨⟨⟨"zzz", "unable to parse IP"⟩, rfl⟩, by decide⟩

/-- Claim C10 (corrected statement).  In the data states `feed` indexes the
tokenized row at the recorded column indices without bounds checks.  It is
total (never panics) on any row that has a token at each of the four
recorded indices.  It panics on every non-blank row with no token at the
recorded gateway index — the first index read — but a shorter row need not
panic in general: the gateway link-level test and destination parse
failures return before the remaining indices are read. -/
theorem claim10_amended :
    (∀ (n : NetstatParser) (line g d f nf : String),
      n.state = NetstatParserState.internet4Data →
      tokenAt (goFields (trimSpace line)) n.net4Fields.gateway = some g →
      tokenAt (goFields (trimSpace line)) n.net4Fields.destination = some d →
      tokenAt (goFields (trimSpace line)) n.net4Fields.flags = some f →
      tokenAt (goFields (trimSpace line)) n.net4Fields.netifIdx = some nf →
      (feed n line).2 ≠ FeedOutcome.panicF) ∧
    (∀ (n : NetstatParser) (line g d f nf : String),
      n.state = NetstatParserState.internet6Data →
      tokenAt (goFields (trimSpace line)) n.net6Fields.gateway = some g →
      tokenAt (goFields (trimSpace line)) n.net6Fields.destination = some d →
      tokenAt (goFields (trimSpace line)) n.net6Fields.flags = some f →
      tokenAt (goFields (trimSpace line)) n.net6Fields.netifIdx = some nf →
      (feed n line).2 ≠ FeedOutcome.panicF) ∧
    (∀ (n : NetstatParser) (line : String),
      n.state = NetstatParserState.internet4Data →
      trimSpace line ≠ "" →
      tokenAt (goFields (trimSpace line)) n.net4Fields.gateway = none →
      (feed n line).2 = FeedOutcome.panicF) ∧
    (∀ (n : NetstatParser) (line : String),
      n.state = NetstatParserState.internet6Data →
      trimSpace line ≠ "" →
      tokenAt (goFields (trimSpace line)) n.net6Fields.gateway = none →
      (feed n line).2 = FeedOutcome.panicF) := by
  refine ⟨?_, ?_, ?_, ?_⟩
  · intro n line g d f nf hstate hg hd hf hnf
    by_cases hbl : trimSpace line = ""
    · simp [feed, hstate, parseInternet4Data, hbl]
    · simp only [feed, hstate, parseInternet4Data]
      rw [if_neg hbl]
      simp only [hg, hd, hf, hnf]
      by_cases hca : goContainsAny g "#:" = true
      · simp [hca]
      · simp only [Bool.not_eq_true] at hca
        simp only [hca, Bool.false_eq_true, if_false]
        cases hpd : parseAddr (if d = "default" then "0.0.0.0" else d) with
        | error e => simp [hpd]
        | ok dst =>
          cases hpg : parseAddr g with
          | error e2 => simp [hpd, hpg]
          | ok gw => simp [hpd, hpg]
  · intro n line g d f nf hstate hg hd hf hnf
    by_cases hbl : trimSpace line = ""
    · simp [feed, hstate, parseInternet6Data, hbl]
    · simp only [feed, hstate, parseInternet6Data]
      rw [if_neg hbl]
      simp only [hg, hd, hf, hnf]
      by_cases hca : goContainsRune g '#' = true
      · simp [hca]
      · simp only [Bool.not_eq_true] at hca
        simp only [hca, Bool.false_eq_true, if_false]
        cases hpd : parseAddr (if goContainsRune (if d = "default" then "::" else d)
            '/' = true then
          splitSlashHead (if d = "default" then "::" else d)
        else (if d = "default" then "::" else d)) with
        | error e => simp [hpd]
        | ok dst =>
          cases hpg : parseAddr g with
          | error e2 => simp [hpd, hpg]
          | ok gw => simp [hpd, hpg]
  · intro n line hstate hne hg
    simp only [feed, hstate, parseInternet4Data]
    rw [if_neg hne]
    simp only [hg]
  · intro n line hstate hne hg
    simp only [feed, hstate, parseInternet6Data]
    rw [if_neg hne]
    simp only [hg]

/-- Claim C10 witness: totality on a full row, the guaranteed panic on a
row with no token at the gateway index. -/
theorem claim10_witness :
    (feed c10parser "10.0.0.0 10.0.0.1 UG en0").2 ≠ FeedOutcome.panicF ∧
    (feed c10parser "x").2 = FeedOutcome.panicF :=
  ⟨claim10_amended.1 c10parser "10.0.0.0 10.0.0.1 UG en0"
      "10.0.0.1" "10.0.0.0" "UG" "en0" rfl (by decide) (by decide) (by decide)
      (by decide),
    claim10_amended.2.2.1 c10parser "x" rfl (by decide) (by decide)⟩

/-- Claim C10, counterexample to the claim as stated: with recorded indices
0..3, the non-blank row `"z x#y"` has only 2 tokens — not strictly more
than the largest recorded index 3 — yet `feed` is total on it (the gateway
token at index 1 contains `#`, so the row is skipped before the out-of-range
indices are read). -/
theorem claim10_counterexample :
    (goFields (trimSpace "z x#y")).length = 2 ∧
    c10parser.net4Fields.netifIdx = 3 ∧
    feed c10parser "z x#y" = (c10parser, FeedOutcome.okF) :=
  ⟨by decide, by decide, by decide⟩

end Defip
